import Mathlib

/-!
Verification of the country/region resolution and spatial bus-location
helpers of this repository (scripts/_helpers.py).

The Python functions are shallowly embedded in Lean:
* Python `str` values are `String` (or `List Char` where character-level
  operations such as `str.strip` / `str.casefold` matter).
* Python floats appearing in `safe_divide` are modelled as exact rationals
  together with an explicit NaN marker (`PyFloat`).
* pandas / geopandas dataframes are modelled as lists of row structures;
  the external geometry library (shapely) is modelled by an abstract
  geometry type with decidable equality, a containment predicate and a
  distance function, which is what `locate_bus` consumes.
* the external `country_converter` (coco) conversion table and the regions
  configuration file are inputs of the repository code, so the embedded
  functions take them as parameters.
-/

/-- The ASCII whitespace characters stripped by Python's `str.strip()`. -/
def isSpc (c : Char) : Bool :=
  c = ' ' || c = '\t' || c = '\n' || c = '\x0b' || c = '\x0c' || c = '\r'

/-- The ASCII uppercase letters. -/
def upperChars : List Char :=
  ['A', 'B', 'C', 'D', 'E', 'F', 'G', 'H', 'I', 'J', 'K', 'L', 'M',
   'N', 'O', 'P', 'Q', 'R', 'S', 'T', 'U', 'V', 'W', 'X', 'Y', 'Z']

/-- Python's `str.casefold` restricted to the ASCII characters that occur in
the commodity tables: uppercase letters are mapped to their lowercase
counterparts, everything else is unchanged. -/
def casefoldChar (c : Char) : Char :=
  if c = 'A' then 'a' else if c = 'B' then 'b' else if c = 'C' then 'c' else
  if c = 'D' then 'd' else if c = 'E' then 'e' else if c = 'F' then 'f' else
  if c = 'G' then 'g' else if c = 'H' then 'h' else if c = 'I' then 'i' else
  if c = 'J' then 'j' else if c = 'K' then 'k' else if c = 'L' then 'l' else
  if c = 'M' then 'm' else if c = 'N' then 'n' else if c = 'O' then 'o' else
  if c = 'P' then 'p' else if c = 'Q' then 'q' else if c = 'R' then 'r' else
  if c = 'S' then 's' else if c = 'T' then 't' else if c = 'U' then 'u' else
  if c = 'V' then 'v' else if c = 'W' then 'w' else if c = 'X' then 'x' else
  if c = 'Y' then 'y' else if c = 'Z' then 'z' else c

/-- Python `s.casefold()` on the character list of `s`. -/
def pyCasefold (l : List Char) : List Char :=
  l.map casefoldChar

/-- Python `s.strip()`: remove leading and trailing whitespace. -/
def pyStrip (l : List Char) : List Char :=
  List.rdropWhile isSpc (List.dropWhile isSpc l)

/-- Python `a < b` on strings: lexicographic comparison by code point. -/
def pyStrLt : List Char → List Char → Bool
  | [], [] => false
  | [], _ :: _ => true
  | _ :: _, [] => false
  | a :: as, b :: bs => if a < b then true else if a = b then pyStrLt as bs else false

/-- Python `sub in s` on strings: `sub` occurs as a contiguous substring. -/
def strIn (sub : List Char) : List Char → Bool
  | [] => sub.isEmpty
  | c :: t => sub.isPrefixOf (c :: t) || strIn sub (t : List Char)

/-- `two_2_three_digits_country` from scripts/_helpers.py.  `cv3` models
`coco.convert(·, to="ISO3")`, the conversion table of the external
`country_converter` package.  The source's recursive calls on the parts of
the composite code `"SN-GM"` are unfolded: both parts differ from
`"SN-GM"`, so each recursive call reduces to the generic branch. -/
def two_2_three_digits_country (cv3 : String → String) (two_code_country : String) : String :=
  if two_code_country = "SN-GM" then
    cv3 "SN" ++ "-" ++ cv3 "GM"
  else
    cv3 two_code_country

/-- `three_2_two_digits_country` from scripts/_helpers.py.  `cv2` models
`coco.convert(·, to="ISO2")`.  Note that the source recurses on the
two-letter parts `"SN"` and `"GM"` (not on `"SEN"`/`"GMB"`); those calls
are unfolded as above. -/
def three_2_two_digits_country (cv2 : String → String) (three_code_country : String) : String :=
  if three_code_country = "SEN-GMB" then
    cv2 "SN" ++ "-" ++ cv2 "GM"
  else
    cv2 three_code_country

/-- A float of the Python code of `safe_divide`: either NaN or a finite
value, finite values modelled as exact rationals. -/
inductive PyFloat where
  | nan : PyFloat
  | val : ℚ → PyFloat
deriving DecidableEq

/-- Python float division for a denominator that compares unequal to `0.0`:
NaN operands propagate, otherwise exact division. -/
def pyDiv : PyFloat → PyFloat → PyFloat
  | PyFloat.nan, _ => PyFloat.nan
  | _, PyFloat.nan => PyFloat.nan
  | PyFloat.val a, PyFloat.val b => PyFloat.val (a / b)

/-- `safe_divide` from scripts/_helpers.py: `if denominator != 0.0: return
numerator / denominator else: ...warning...; return np.nan`. -/
def safe_divide (numerator denominator : PyFloat) : PyFloat :=
  if denominator ≠ PyFloat.val 0 then
    pyDiv numerator denominator
  else
    PyFloat.nan

/-- C9: `safe_divide` is a total function (the embedding returns a value for
every input, modelling that the Python code raises no exception): it
returns the quotient `numerator / denominator` whenever the denominator
compares unequal to `0.0`, and NaN when the denominator equals `0.0`. -/
theorem safe_divide_total_correct (numerator denominator : PyFloat) :
    (denominator ≠ PyFloat.val 0 →
      safe_divide numerator denominator = pyDiv numerator denominator)
    ∧ (denominator = PyFloat.val 0 → safe_divide numerator denominator = PyFloat.nan) := by
  constructor
  · intro h
    simp [safe_divide, h]
  · intro h
    simp [safe_divide, h]

/-- Witness for C9 at concrete inputs 3 / 2 and 3 / 0. -/
theorem safe_divide_total_correct_witness :
    safe_divide (PyFloat.val 3) (PyFloat.val 2) = pyDiv (PyFloat.val 3) (PyFloat.val 2)
    ∧ safe_divide (PyFloat.val 3) (PyFloat.val 0) = PyFloat.nan :=
  ⟨(safe_divide_total_correct (PyFloat.val 3) (PyFloat.val 2)).1 (by decide),
   (safe_divide_total_correct (PyFloat.val 3) (PyFloat.val 0)).2 rfl⟩

/-- C3: for every valid 2-letter country code, converting to a 3-letter code
and back is the identity.  The external conversion table is constrained
only by what the spec calls the generic conversion table: on valid 2-letter
codes it produces 3-letter codes and `cv2` inverts `cv3`.  The content of
the theorem is that the composite-code special cases of the two wrappers
never fire on valid 2-letter codes, so the table round-trip is preserved. -/
theorem roundtrip_two_three_two (cv3 cv2 : String → String) (valid2 : String → Prop)
    (hlen2 : ∀ c, valid2 c → c.length = 2)
    (hlen3 : ∀ c, valid2 c → (cv3 c).length = 3)
    (hinv : ∀ c, valid2 c → cv2 (cv3 c) = c)
    (c : String) (hc : valid2 c) :
    three_2_two_digits_country cv2 (two_2_three_digits_country cv3 c) = c := by
  have h1 : c ≠ "SN-GM" := by
    intro h
    have := hlen2 c hc
    rw [h] at this
    exact absurd this (by decide)
  have h2 : cv3 c ≠ "SEN-GMB" := by
    intro h
    have := hlen3 c hc
    rw [h] at this
    exact absurd this (by decide)
  rw [two_2_three_digits_country, if_neg h1, three_2_two_digits_country, if_neg h2]
  exact hinv c hc

/-- A small concrete instance of the coco ISO3 table, for witnesses. -/
def cvW3 (c : String) : String :=
  if c = "NG" then "NGA" else if c = "SN" then "SEN" else if c = "GM" then "GMB" else "XXX"

/-- A small concrete instance of the coco ISO2 table, for witnesses.  As in
coco, converting a code that is already a 2-letter code to ISO2 returns it
unchanged. -/
def cvW2 (c : String) : String :=
  if c = "NGA" then "NG" else if c = "SN" then "SN" else if c = "GM" then "GM" else "XX"

/-- Witness for C3 at the concrete code "NG" over the concrete table. -/
theorem roundtrip_two_three_two_witness :
    three_2_two_digits_country cvW2 (two_2_three_digits_country cvW3 "NG") = "NG" :=
  roundtrip_two_three_two cvW3 cvW2 (fun c => c = "NG")
    (fun c hc => by rw [hc]; decide)
    (fun c hc => by rw [hc]; decide)
    (fun c hc => by rw [hc]; decide)
    "NG" rfl

/-- C4: the composite shared-region code is recognized by exact string
match before any call to the generic conversion table (the first conjunct
holds for every table assigning the documented values to the two parts),
and it round-trips through both conversions preserving the separator "-"
and both sub-codes.  The hypotheses record the values the external coco
table takes on the two parts, including that converting an ISO2 code to
ISO2 returns it unchanged (which is what the source's recursion on the
2-letter parts relies on). -/
theorem composite_code_roundtrip (cv3 cv2 : String → String)
    (h3sn : cv3 "SN" = "SEN") (h3gm : cv3 "GM" = "GMB")
    (h2sn : cv2 "SN" = "SN") (h2gm : cv2 "GM" = "GM") :
    two_2_three_digits_country cv3 "SN-GM" = "SEN-GMB"
    ∧ three_2_two_digits_country cv2 (two_2_three_digits_country cv3 "SN-GM") = "SN-GM" := by
  have hfwd : two_2_three_digits_country cv3 "SN-GM" = "SEN-GMB" := by
    rw [two_2_three_digits_country, if_pos rfl, h3sn, h3gm]
    rfl
  refine ⟨hfwd, ?_⟩
  rw [hfwd, three_2_two_digits_country, if_pos rfl, h2sn, h2gm]
  rfl

/-- Witness for C4 over the concrete table. -/
theorem composite_code_roundtrip_witness :
    two_2_three_digits_country cvW3 "SN-GM" = "SEN-GMB"
    ∧ three_2_two_digits_country cvW2 (two_2_three_digits_country cvW3 "SN-GM") = "SN-GM" :=
  composite_code_roundtrip cvW3 cvW2 (by decide) (by decide) (by decide) (by decide)

/-- The if/elif reassignment chain of `modify_commodity` from
scripts/_helpers.py: known misspellings of commodity names are replaced,
everything else is left unchanged. -/
def modifyCommodityFix (commodity : List Char) : List Char :=
  if pyStrip commodity = "Hrad coal".toList then "Hard coal".toList
  else if pyCasefold (pyStrip commodity) = "coke oven gas".toList then "Coke-oven gas".toList
  else if pyCasefold (pyStrip commodity) = "coke oven coke".toList then "Coke-oven coke".toList
  else if pyStrip commodity = "Liquified Petroleum Gas (LPG)".toList then
    "Liquefied Petroleum Gas (LPG)".toList
  else if pyStrip commodity = "Gas Oil/Diesel Oil".toList then "Gas Oil/ Diesel Oil".toList
  else if pyStrip commodity = "Lignite brown coal- recoverable resources".toList then
    "Lignite brown coal - recoverable resources".toList
  else commodity

/-- `modify_commodity` from scripts/_helpers.py: apply the fix chain, then
`return commodity.strip().casefold()`. -/
def modify_commodity (commodity : List Char) : List Char :=
  pyCasefold (pyStrip (modifyCommodityFix commodity))

theorem casefoldChar_eq_self_of_not_upper (c : Char) (hc : c ∉ upperChars) :
    casefoldChar c = c := by
  simp only [upperChars, List.mem_cons, List.not_mem_nil, or_false, not_or] at hc
  obtain ⟨hA, hB, hC, hD, hE, hF, hG, hH, hI, hJ, hK, hL, hM,
eN, hO, hP, hQ, hR, hS, hT, hU, hV, hW, hX, hY, hZ⟩ := hc
  simp [casefoldChar, hA, hB, hC, hD, hE, hF, hG, hH, hI, hJ, hK, hL, hM,
    eN, hO, hP, hQ, hR, hS, hT, hU, hV, hW, hX, hY, hZ]

theorem isSpc_casefoldChar (c : Char) : isSpc (casefoldChar c) = isSpc c := by
  by_cases hc : c ∈ upperChars
  · simp only [upperChars, List.mem_cons, List.not_mem_nil, or_false] at hc
    rcases hc with rfl | rfl | rfl | rfl | rfl | rfl | rfl | rfl | rfl | rfl | rfl | rfl | rfl |
      rfl | rfl | rfl | rfl | rfl | rfl | rfl | rfl | rfl | rfl | rfl | rfl | rfl <;> decide
  · rw [casefoldChar_eq_self_of_not_upper c hc]

theorem casefoldChar_idem (c : Char) : casefoldChar (casefoldChar c) = casefoldChar c := by
  by_cases hc : c ∈ upperChars
  · simp only [upperChars, List.mem_cons, List.not_mem_nil, or_false] at hc
    rcases hc with rfl | rfl | rfl | rfl | rfl | rfl | rfl | rfl | rfl | rfl | rfl | rfl | rfl |
      rfl | rfl | rfl | rfl | rfl | rfl | rfl | rfl | rfl | rfl | rfl | rfl | rfl <;> decide
  · rw [casefoldChar_eq_self_of_not_upper c hc, casefoldChar_eq_self_of_not_upper c hc]

theorem casefoldChar_ne_upper (c u : Char) (hu : u ∈ upperChars) : casefoldChar c ≠ u := by
  by_cases hc : c ∈ upperChars
  · simp only [upperChars, List.mem_cons, List.not_mem_nil, or_false] at hc
    rcases hc with rfl | rfl | rfl | rfl | rfl | rfl | rfl | rfl | rfl | rfl | rfl | rfl | rfl |
        rfl | rfl | rfl | rfl | rfl | rfl | rfl | rfl | rfl | rfl | rfl | rfl | rfl <;>
      · intro he
        rw [← he] at hu
        exact absurd hu (by decide)
  · rw [casefoldChar_eq_self_of_not_upper c hc]
    intro he
    rw [he] at hc
    exact hc hu

theorem pyCasefold_idem (l : List Char) : pyCasefold (pyCasefold l) = pyCasefold l := by
  simp only [pyCasefold, List.map_map]
  exact List.map_congr_left (fun a _ => casefoldChar_idem a)

theorem pyCasefold_ne_of_head_upper (z w : List Char) (u : Char)
    (hhead : w.head? = some u) (hu : u ∈ upperChars) : pyCasefold z ≠ w := by
  intro he
  cases z with
  | nil =>
    rw [← he] at hhead
    simp [pyCasefold] at hhead
  | cons c t =>
    rw [← he] at hhead
    simp only [pyCasefold, List.map_cons, List.head?_cons, Option.some.injEq] at hhead
    exact casefoldChar_ne_upper c u hu hhead

theorem pyStrip_pyCasefold (l : List Char) :
    pyStrip (pyCasefold l) = pyCasefold (pyStrip l) := by
  have hcomp : (isSpc ∘ casefoldChar) = isSpc := funext isSpc_casefoldChar
  simp only [pyStrip, pyCasefold, List.rdropWhile]
  rw [List.dropWhile_map, hcomp, ← List.map_reverse, List.dropWhile_map, hcomp,
    ← List.map_reverse]

theorem dropWhile_pyStrip (l : List Char) :
    List.dropWhile isSpc (pyStrip l) = pyStrip l := by
  unfold pyStrip
  obtain ⟨t, ht⟩ := List.rdropWhile_prefix isSpc (List.dropWhile isSpc l)
  cases hb : List.rdropWhile isSpc (List.dropWhile isSpc l) with
  | nil => simp
  | cons x xs =>
    have hhead : (List.dropWhile isSpc l).head? = some x := by
      rw [← ht, hb]
      rfl
    have hx := List.head?_dropWhile_not isSpc l
    rw [hhead] at hx
    have hx2 : isSpc x = false := hx
    rw [List.dropWhile_cons, if_neg (by simp [hx2])]

theorem pyStrip_idem (l : List Char) : pyStrip (pyStrip l) = pyStrip l := by
  have h1 : pyStrip (pyStrip l) = List.rdropWhile isSpc (pyStrip l) := by
    rw [show pyStrip (pyStrip l)
        = List.rdropWhile isSpc (List.dropWhile isSpc (pyStrip l)) from rfl,
      dropWhile_pyStrip]
  rw [h1]
  simp only [pyStrip]
  exact List.rdropWhile_idempotent _ _

/-- The six possible outcomes of the fix chain: one of the six literal
replacement strings, or the input unchanged (in which case the two
casefolded comparisons are known to have failed). -/
theorem modifyCommodityFix_spec (s : List Char) :
    (modifyCommodityFix s ∈
      ["Hard coal".toList, "Coke-oven gas".toList, "Coke-oven coke".toList,
       "Liquefied Petroleum Gas (LPG)".toList, "Gas Oil/ Diesel Oil".toList,
       "Lignite brown coal - recoverable resources".toList])
    ∨ (modifyCommodityFix s = s
        ∧ pyCasefold (pyStrip s) ≠ "coke oven gas".toList
        ∧ pyCasefold (pyStrip s) ≠ "coke oven coke".toList) := by
  unfold modifyCommodityFix
  split_ifs with h1 h2 h3 h4 h5 h6
  · exact Or.inl (by simp)
  · exact Or.inl (by simp)
  · exact Or.inl (by simp)
  · exact Or.inl (by simp)
  · exact Or.inl (by simp)
  · exact Or.inl (by simp)
  · exact Or.inr ⟨rfl, h2, h3⟩

/-- C10: `modify_commodity` is idempotent, and its output is already
whitespace-stripped and casefolded. -/
theorem modify_commodity_idem_stripped_casefolded (s : List Char) :
    modify_commodity (modify_commodity s) = modify_commodity s
    ∧ pyStrip (modify_commodity s) = modify_commodity s
    ∧ pyCasefold (modify_commodity s) = modify_commodity s := by
  have hstrip : ∀ t : List Char, pyStrip (modify_commodity t) = modify_commodity t := by
    intro t
    rw [modify_commodity, pyStrip_pyCasefold, pyStrip_idem]
  have hcase : ∀ t : List Char, pyCasefold (modify_commodity t) = modify_commodity t := by
    intro t
    rw [modify_commodity, pyCasefold_idem]
  refine ⟨?_, hstrip s, hcase s⟩
  rcases modifyCommodityFix_spec s with hmem | ⟨heq, hc2, hc3⟩
  · simp only [List.mem_cons, List.not_mem_nil, or_false] at hmem
    rcases hmem with h | h | h | h | h | h <;> (simp only [modify_commodity, h]; decide)
  · have hweq : modify_commodity s = pyCasefold (pyStrip s) := by
      rw [modify_commodity, heq]
    have hws : pyStrip (modify_commodity s) = modify_commodity s := hstrip s
    have hwc : pyCasefold (modify_commodity s) = modify_commodity s := hcase s
    have hfix : modifyCommodityFix (modify_commodity s) = modify_commodity s := by
      unfold modifyCommodityFix
      rw [hws, hwc]
      rw [if_neg (by
            rw [hweq]
            exact pyCasefold_ne_of_head_upper _ _ 'H' (by decide) (by decide)),
        if_neg (by rw [hweq]; exact hc2),
        if_neg (by rw [hweq]; exact hc3),
        if_neg (by
            rw [hweq]
            exact pyCasefold_ne_of_head_upper _ _ 'L' (by decide) (by decide)),
        if_neg (by
            rw [hweq]
            exact pyCasefold_ne_of_head_upper _ _ 'G' (by decide) (by decide)),
        if_neg (by
            rw [hweq]
            exact pyCasefold_ne_of_head_upper _ _ 'L' (by decide) (by decide))]
    rw [show modify_commodity (modify_commodity s)
        = pyCasefold (pyStrip (modifyCommodityFix (modify_commodity s))) from rfl,
      hfix, hws, hwc]

/-- The inner `filter_codes` of `create_country_list` from
scripts/_helpers.py.  Returns the filtered list together with the list of
non-ISO2 tokens named in the warning (`list(set(c_list) - set(ret_list))`,
logged only when elements were actually removed; empty when no warning is
issued). -/
def filter_codes (c_list : List String) (iso_coding : Bool) : List String × List String :=
  if iso_coding then
    let ret_list := c_list.filter (fun c => c.length = 2)
    (ret_list,
      if ret_list.length < c_list.length then
        (c_list.filter (fun c => c ∉ ret_list)).dedup
      else [])
  else
    (c_list, [])

/-- Python `list(set(xs))`: deduplication through an unordered set.  CPython
iteration order over the set is unspecified; the model keeps one occurrence
of each element. -/
def pySet (xs : List String) : List String :=
  xs.dedup

/-- Expansion of one input token of `create_country_list`: `"Earth"` expands
to all countries of all continents, a continent name to its country list, a
region name to its country list, anything else stands for itself.
`world_iso` and `continent_regions` model the dictionaries of the regions
configuration file (for `world_iso`, the value list holds the keys of the
inner country dictionary, which is what `list(world_iso[continent])`
produces). -/
def expandToken (world_iso continent_regions : List (String × List String))
    (value1 : String) : List String :=
  if value1 = "Earth" then (world_iso.map Prod.snd).flatten
  else
    match world_iso.lookup value1 with
    | some codes => codes
    | none =>
      match continent_regions.lookup value1 with
      | some codes => codes
      | none => [value1]

/-- `create_country_list` from scripts/_helpers.py: expand every input
token, deduplicate through a set, then filter by coding.  Returns the
country list and the warning token list. -/
def create_country_list (world_iso continent_regions : List (String × List String))
    (input : List String) (iso_coding : Bool) : List String × List String :=
  let full_codes_list := input.foldl (fun acc v => acc ++ expandToken world_iso continent_regions v) []
  filter_codes (pySet full_codes_list) iso_coding

theorem foldl_append_expand (e : String → List String) (input : List String) :
    ∀ acc : List String,
      input.foldl (fun acc v => acc ++ e v) acc = acc ++ (input.map e).flatten := by
  induction input with
  | nil => intro acc; simp
  | cons x xs ih =>
    intro acc
    simp only [List.foldl_cons, List.map_cons, List.flatten_cons, ih, List.append_assoc]

theorem mem_flatten_map_snd (wi : List (String × List String)) (c : String) :
    c ∈ (wi.map Prod.snd).flatten ↔ ∃ p ∈ wi, c ∈ p.2 := by
  simp only [List.mem_flatten, List.mem_map]
  constructor
  · rintro ⟨l, ⟨p, hp, rfl⟩, hc⟩
    exact ⟨p, hp, hc⟩
  · rintro ⟨p, hp, hc⟩
    exact ⟨p.2, ⟨p, hp, rfl⟩, hc⟩

/-- C5: expanding `["Earth"]` with ISO filtering gives exactly the 2-letter
country codes of the configured continents, without duplicates; the warning
names exactly the non-2-letter tokens of the configuration; and because
deduplication goes through an unordered set before the ISO-only filter, the
resulting country list is permutation-invariant in the input token list
(for any input, not just `["Earth"]`). -/
theorem create_country_list_earth_correct (wi cr : List (String × List String)) :
    (∀ c, c ∈ (create_country_list wi cr ["Earth"] true).1 ↔
        ((∃ p ∈ wi, c ∈ p.2) ∧ c.length = 2))
    ∧ (create_country_list wi cr ["Earth"] true).1.Nodup
    ∧ (∀ c, c ∈ (create_country_list wi cr ["Earth"] true).2 ↔
        ((∃ p ∈ wi, c ∈ p.2) ∧ c.length ≠ 2))
    ∧ (∀ (in1 in2 : List String) (iso : Bool), in1.Perm in2 →
        (create_country_list wi cr in1 iso).1.Perm (create_country_list wi cr in2 iso).1) := by
  have hcc : create_country_list wi cr ["Earth"] true
      = filter_codes ((wi.map Prod.snd).flatten).dedup true := by
    simp [create_country_list, pySet, expandToken]
  have hret : (create_country_list wi cr ["Earth"] true).1
      = ((wi.map Prod.snd).flatten).dedup.filter (fun c => c.length = 2) := by
    rw [hcc]
    simp [filter_codes]
  refine ⟨?_, ?_, ?_, ?_⟩
  · intro c
    rw [hret]
    simp only [List.mem_filter, List.mem_dedup, decide_eq_true_eq, mem_flatten_map_snd]
  · rw [hret]
    exact (List.nodup_dedup _).filter _
  · intro c
    rw [hcc]
    simp only [filter_codes, if_pos]
    by_cases hlt : (((wi.map Prod.snd).flatten).dedup.filter (fun c => c.length = 2)).length
        < ((wi.map Prod.snd).flatten).dedup.length
    · simp only [hlt, if_true]
      simp only [List.mem_dedup, List.mem_filter, decide_eq_true_eq, mem_flatten_map_snd]
      constructor
      · rintro ⟨hmem, hnot⟩
        exact ⟨hmem, fun hlen => hnot ⟨hmem, hlen⟩⟩
      · rintro ⟨hmem, hlen⟩
        exact ⟨hmem, fun hfil => hlen hfil.2⟩
    · simp only [hlt, if_false]
      have hall : ∀ a ∈ ((wi.map Prod.snd).flatten).dedup, (fun c => decide (c.length = 2)) a = true := by
        rw [← List.countP_eq_length]
        have hle := List.length_filter_le (fun c => decide (c.length = 2))
          ((wi.map Prod.snd).flatten).dedup
        rw [← List.countP_eq_length_filter] at hle
        have hge : ¬ _ < _ := hlt
        rw [← List.countP_eq_length_filter] at hge
        omega
      simp only [List.not_mem_nil, false_iff, not_and]
      intro hmem hlen
      have := hall c (by rw [List.mem_dedup, mem_flatten_map_snd]; exact hmem)
      simp only [decide_eq_true_eq] at this
      exact hlen this
  · intro in1 in2 iso hperm
    have hfull : ∀ input : List String,
        input.foldl (fun acc v => acc ++ expandToken wi cr v) []
          = (input.map (expandToken wi cr)).flatten := by
      intro input
      rw [foldl_append_expand]
      simp
    have hpermfull :
        (in1.foldl (fun acc v => acc ++ expandToken wi cr v) []).Perm
          (in2.foldl (fun acc v => acc ++ expandToken wi cr v) []) := by
      rw [hfull, hfull]
      exact (hperm.map (expandToken wi cr)).flatten
    have hpermded := hpermfull.dedup
    simp only [create_country_list, pySet]
    cases iso with
    | true =>
      simp only [filter_codes, if_pos]
      exact hpermded.filter _
    | false =>
      simp only [filter_codes, if_neg]
      exact hpermded

/-- A small concrete regions configuration for witnesses. -/
def wiW : List (String × List String) :=
  [("Africa", ["NG", "ZA", "KEN"]), ("Asia", ["IN"])]

/-- Witness for C5: over a concrete configuration, "NG" is in the expanded
Earth list, the non-ISO2 token "KEN" is warned about, and permuting the
input tokens permutes the result. -/
theorem create_country_list_earth_correct_witness :
    ("NG" ∈ (create_country_list wiW [] ["Earth"] true).1)
    ∧ ("KEN" ∈ (create_country_list wiW [] ["Earth"] true).2)
    ∧ ((create_country_list wiW [] ["NG", "Earth"] true).1).Perm
        ((create_country_list wiW [] ["Earth", "NG"] true).1) :=
  ⟨((create_country_list_earth_correct wiW []).1 "NG").mpr
      ⟨⟨("Africa", ["NG", "ZA", "KEN"]), by decide, by decide⟩, by decide⟩,
   ((create_country_list_earth_correct wiW []).2.2.1 "KEN").mpr
      ⟨⟨("Africa", ["NG", "ZA", "KEN"]), by decide, by decide⟩, by decide⟩,
   (create_country_list_earth_correct wiW []).2.2.2 ["NG", "Earth"] ["Earth", "NG"] true
      (by decide)⟩

/-- A row of the `n.lines` table used by `create_network_topology`. -/
structure LineRow where
  bus0 : String
  bus1 : String
  length : ℚ
deriving DecidableEq

/-- A row of the `n.links` table used by `create_network_topology`. -/
structure LinkRow where
  bus0 : String
  bus1 : String
  length : ℚ
  underwater_fraction : ℚ
  carrier : String
deriving DecidableEq

/-- A row of the concatenated candidates frame (after `fillna(0)`, which
sets the underwater fraction of line rows to 0). -/
structure CandRow where
  bus0 : String
  bus1 : String
  length : ℚ
  underwater_fraction : ℚ
deriving DecidableEq

/-- A row of the topology result, including its synthetic string index. -/
structure TopoRow where
  idx : String
  bus0 : String
  bus1 : String
  length : ℚ
  underwater_fraction : ℚ
deriving DecidableEq

/-- Ordering of groupby keys: pandas sorts the group keys, here pairs of
strings compared lexicographically by Python string order. -/
def pairLe (a b : String × String) : Bool :=
  pyStrLt a.1.toList b.1.toList
    || (a.1 == b.1 && (pyStrLt a.2.toList b.2.toList || a.2 == b.2))

def insertPair (x : String × String) : List (String × String) → List (String × String)
  | [] => [x]
  | y :: ys => if pairLe x y then x :: y :: ys else y :: insertPair x ys

def sortPairs (l : List (String × String)) : List (String × String) :=
  l.foldr insertPair []

/-- `candidates.groupby(["bus0", "bus1"], as_index=False).mean()`: one row
per distinct (bus0, bus1) pair in sorted key order, numeric columns
averaged over the group. -/
def groupMean (cands : List CandRow) : List CandRow :=
  let keys := sortPairs ((cands.map (fun c => (c.bus0, c.bus1))).dedup)
  keys.map (fun k =>
    let grp := cands.filter (fun c => c.bus0 == k.1 && c.bus1 == k.2)
    { bus0 := k.1, bus1 := k.2,
      length := (grp.map (fun c => c.length)).sum / (grp.length : ℚ),
      underwater_fraction := (grp.map (fun c => c.underwater_fraction)).sum / (grp.length : ℚ) })

/-- `create_network_topology` from scripts/_helpers.py: concatenate line
rows and DC link rows (missing underwater fractions filled with 0),
canonicalize each row so that bus0 is the lexicographically smaller
endpoint, group by the canonical pair averaging numeric columns, build the
string index, and when not bidirectional also emit the reversed rows. -/
def create_network_topology (lines : List LineRow) (links : List LinkRow)
    (pfx connector : String) (bidirectional : Bool) : List TopoRow :=
  let lcand := lines.map (fun l => CandRow.mk l.bus0 l.bus1 l.length 0)
  let kcand := (links.filter (fun k => k.carrier == "DC")).map
    (fun k => CandRow.mk k.bus0 k.bus1 k.length k.underwater_fraction)
  let candidates := lcand ++ kcand
  let candidates_p := candidates.filter (fun c => pyStrLt c.bus0.toList c.bus1.toList)
  let candidates_n := (candidates.filter
      (fun c => !(pyStrLt c.bus0.toList c.bus1.toList))).map
    (fun c => CandRow.mk c.bus1 c.bus0 c.length c.underwater_fraction)
  let topo := groupMean (candidates_p ++ candidates_n)
  let topo2 := topo.map (fun r =>
    TopoRow.mk (pfx ++ r.bus0 ++ connector ++ r.bus1) r.bus0 r.bus1 r.length
      r.underwater_fraction)
  if bidirectional then topo2
  else
    topo2 ++ topo2.map (fun r =>
      TopoRow.mk (pfx ++ r.bus1 ++ connector ++ r.bus0) r.bus1 r.bus0 r.length
        r.underwater_fraction)

theorem pyStrLt_asymm (a b : List Char) (h : pyStrLt a b = true) : pyStrLt b a = false := by
  induction a generalizing b with
  | nil =>
    cases b with
    | nil => simp [pyStrLt] at h
    | cons c t => simp [pyStrLt]
  | cons x xs ih =>
    cases b with
    | nil => simp [pyStrLt] at h
    | cons y ys =>
      simp only [pyStrLt] at h ⊢
      by_cases hxy : x < y
      · have h1 : ¬ y < x := lt_asymm hxy
        have h2 : y ≠ x := ne_of_gt hxy
        simp [h1, h2]
      · by_cases heq : x = y
        · subst heq
          simp only [lt_irrefl, if_false, if_pos rfl] at h ⊢
          exact ih ys h
        · simp [hxy, heq] at h

theorem topo_pair_aux (A B pfx conn : String) (l1 l2 : ℚ) (r1 r2 : LineRow)
    (hAB : pyStrLt A.toList B.toList = true)
    (h1 : r1 = ⟨A, B, l1⟩ ∨ r1 = ⟨B, A, l1⟩)
    (h2 : r2 = ⟨A, B, l2⟩ ∨ r2 = ⟨B, A, l2⟩) :
    create_network_topology [r1, r2] [] pfx conn true
      = [⟨pfx ++ A ++ conn ++ B, A, B, (l1 + l2) / 2, 0⟩] := by
  have hAB2 : pyStrLt A.data B.data = true := hAB
  have hBA2 : pyStrLt B.data A.data = false := pyStrLt_asymm _ _ hAB
  rcases h1 with rfl | rfl <;> rcases h2 with rfl | rfl <;>
    · simp [create_network_topology, groupMean, sortPairs, insertPair, hAB2, hBA2]
      try ring_nf

/-- C6: two parallel lines between the same bus pair A–B, in either
endpoint order, produce exactly one topology row whose bus0 is the
lexicographically smaller endpoint and whose length is the mean of the two
input lengths, and the output does not depend on the order of the two
input rows. -/
theorem topology_parallel_lines_mean (A B pfx conn : String) (l1 l2 : ℚ) (r1 r2 : LineRow)
    (hAB : pyStrLt A.toList B.toList = true)
    (h1 : r1 = ⟨A, B, l1⟩ ∨ r1 = ⟨B, A, l1⟩)
    (h2 : r2 = ⟨A, B, l2⟩ ∨ r2 = ⟨B, A, l2⟩) :
    create_network_topology [r1, r2] [] pfx conn true
      = [⟨pfx ++ A ++ conn ++ B, A, B, (l1 + l2) / 2, 0⟩]
    ∧ create_network_topology [r2, r1] [] pfx conn true
      = [⟨pfx ++ A ++ conn ++ B, A, B, (l1 + l2) / 2, 0⟩] := by
  refine ⟨topo_pair_aux A B pfx conn l1 l2 r1 r2 hAB h1 h2, ?_⟩
  rw [show (l1 + l2) = (l2 + l1) from add_comm _ _]
  exact topo_pair_aux A B pfx conn l2 l1 r2 r1 hAB h2 h1

/-- Witness for C6 at concrete buses "a", "b" with lengths 1 and 3. -/
theorem topology_parallel_lines_mean_witness :
    create_network_topology [⟨"a", "b", 1⟩, ⟨"b", "a", 3⟩] [] "T " " <-> " true
      = [⟨"T " ++ "a" ++ " <-> " ++ "b", "a", "b", (1 + 3) / 2, 0⟩]
    ∧ create_network_topology [⟨"b", "a", 3⟩, ⟨"a", "b", 1⟩] [] "T " " <-> " true
      = [⟨"T " ++ "a" ++ " <-> " ++ "b", "a", "b", (1 + 3) / 2, 0⟩] :=
  topology_parallel_lines_mean "a" "b" "T " " <-> " 1 3 _ _ (by decide) (Or.inl rfl)
    (Or.inr rfl)

/-- A row of the boundary GeoDataFrame consumed by `locate_bus`: the value
of the identifier column and the row's geometry.  The geometry type `G` is
abstract (shapely is external); `locate_bus` only needs decidable equality
(`gdf_co.geometry == shape`), a containment test and a distance function
on it. -/
structure GeoRow (G : Type) where
  colval : String
  geom : G
deriving DecidableEq

/-- pandas `Series.item()`: the value when the series has exactly one
element, otherwise a ValueError (modelled as `none`). -/
def seriesItem {α : Type} : List α → Option α
  | [x] => some x
  | _ => none

/-- Python `min(xs, key=k)`: the first element attaining the minimal key;
ValueError (`none`) on an empty sequence. -/
def minByFirst {α : Type} (key : α → ℚ) : List α → Option α
  | [] => none
  | x :: xs => some (xs.foldl (fun b a => if key a < key b then a else b) x)

/-- `locate_bus` from scripts/_helpers.py, after the boundary layer `gdf`
has been loaded and the identifier column chosen: filter to rows whose
identifier contains the country code as a substring, then `try` to
`.item()` the identifiers of the rows containing the point (a ValueError —
zero or several rows — is caught), falling back to the rows whose geometry
equals the distance-minimizing geometry, whose `.item()` ValueErrors are
raised from inside the handler and therefore propagate, as does the
ValueError of `min` on an empty sequence. -/
def locate_bus {G : Type} [DecidableEq G] (containsG : G → ℚ × ℚ → Bool)
    (distG : G → ℚ × ℚ → ℚ) (gdf : List (GeoRow G)) (co : String) (coords : ℚ × ℚ) :
    Except String String :=
  let gdf_co := gdf.filter (fun r => strIn co.toList r.colval.toList)
  match seriesItem ((gdf_co.filter (fun r => containsG r.geom coords)).map
      (fun r => r.colval)) with
  | some v => Except.ok v
  | none =>
    match minByFirst (fun g => distG g coords) (gdf_co.map (fun r => r.geom)) with
    | none => Except.error "min() arg is an empty sequence"
    | some g =>
      match seriesItem ((gdf_co.filter (fun r => r.geom == g)).map (fun r => r.colval)) with
      | some v => Except.ok v
      | none => Except.error "can only convert an array of size 1 to a Python scalar"

/-- C1 (amended): if exactly one country-filtered polygon contains the
point, `locate_bus` returns its identifier; if no filtered polygon
contains the point, it returns the identifier of the first filtered
polygon attaining minimum distance to the point, provided that polygon's
geometry occurs in exactly one filtered row. -/
theorem locate_bus_unique_containment_and_fallback {G : Type} [DecidableEq G]
    (containsG : G → ℚ × ℚ → Bool) (distG : G → ℚ × ℚ → ℚ)
    (gdf : List (GeoRow G)) (co : String) (coords : ℚ × ℚ) :
    (∀ v : String,
      ((gdf.filter (fun r => strIn co.toList r.colval.toList)).filter
          (fun r => containsG r.geom coords)).map (fun r => r.colval) = [v] →
      locate_bus containsG distG gdf co coords = Except.ok v)
    ∧ (∀ (g : G) (w : String),
      (gdf.filter (fun r => strIn co.toList r.colval.toList)).filter
          (fun r => containsG r.geom coords) = [] →
      minByFirst (fun g2 => distG g2 coords)
          ((gdf.filter (fun r => strIn co.toList r.colval.toList)).map (fun r => r.geom))
        = some g →
      ((gdf.filter (fun r => strIn co.toList r.colval.toList)).filter
          (fun r => r.geom == g)).map (fun r => r.colval) = [w] →
      locate_bus containsG distG gdf co coords = Except.ok w) := by
  constructor
  · intro v hv
    simp only [locate_bus]
    rw [hv]
    rfl
  · intro g w hempty hmin hw
    have step : locate_bus containsG distG gdf co coords
        = match seriesItem (((gdf.filter (fun r => strIn co.toList r.colval.toList)).filter
            (fun r => r.geom == g)).map (fun r => r.colval)) with
          | some v => Except.ok v
          | none => Except.error "can only convert an array of size 1 to a Python scalar" := by
      simp only [locate_bus]
      rw [hempty, hmin]
      rfl
    rw [step, hw]
    rfl

/-- C2: when the country filter selects no row at all, `locate_bus` does
not return any identifier: the containment lookup raises a caught
ValueError, and the fallback's `min` over the empty geometry sequence
raises a ValueError that propagates. -/
theorem locate_bus_empty_selection_error {G : Type} [DecidableEq G]
    (containsG : G → ℚ × ℚ → Bool) (distG : G → ℚ × ℚ → ℚ)
    (gdf : List (GeoRow G)) (co : String) (coords : ℚ × ℚ)
    (hempty : gdf.filter (fun r => strIn co.toList r.colval.toList) = []) :
    locate_bus containsG distG gdf co coords
      = Except.error "min() arg is an empty sequence" := by
  simp only [locate_bus]
  rw [hempty]
  rfl

/-- Containment oracle of the C1 counterexample: the point lies strictly
inside the (overlapping) polygons 2 and 3 but only on the boundary of
polygon 1 (not strictly inside it, at geometric distance 0). -/
def cexContains (g : ℕ) (_ : ℚ × ℚ) : Bool :=
  decide (g ≠ 1)

/-- Distance oracle of the C1 counterexample: the point touches or lies
inside every polygon, so all distances are 0. -/
def cexDist (_ : ℕ) (_ : ℚ × ℚ) : ℚ := 0

/-- Boundary layer of the C1 counterexample: three rows of country "MA". -/
def cexLayer : List (GeoRow ℕ) :=
  [⟨"MA1", 1⟩, ⟨"MA2", 2⟩, ⟨"MA3", 3⟩]

/-- Counterexample to C1 as stated: the point is strictly inside filtered
polygons "MA2" and "MA3" (the first filtered polygon containing the point
is "MA2"), yet `locate_bus` returns "MA1" — with two containing rows the
`.item()` call raises, and the distance fallback selects the first
distance-0 row, which does not even contain the point. -/
theorem locate_bus_first_containment_counterexample :
    cexContains 1 (0, 0) = false
    ∧ cexContains 2 (0, 0) = true
    ∧ cexContains 3 (0, 0) = true
    ∧ ((cexLayer.filter (fun r => strIn "MA".toList r.colval.toList)).filter
        (fun r => cexContains r.geom (0, 0))).map (fun r => r.colval) = ["MA2", "MA3"]
    ∧ locate_bus cexContains cexDist cexLayer "MA" (0, 0) = Except.ok "MA1"
    ∧ "MA1" ≠ "MA2" :=
  ⟨rfl, rfl, rfl, by decide, rfl, by decide⟩

/-- A containment oracle that never contains, for the fallback witness. -/
def noContains (_ : ℕ) (_ : ℚ × ℚ) : Bool := false

/-- Witness for the amended C1: a unique-containment lookup returns that
row's identifier, and a containment-free lookup returns the first
minimum-distance row's identifier. -/
theorem locate_bus_unique_containment_witness :
    locate_bus cexContains cexDist [⟨"MA1", 1⟩, ⟨"MA2", 2⟩] "MA" (0, 0) = Except.ok "MA2"
    ∧ locate_bus noContains cexDist cexLayer "MA" (0, 0) = Except.ok "MA1" :=
  ⟨(locate_bus_unique_containment_and_fallback cexContains cexDist
      [⟨"MA1", 1⟩, ⟨"MA2", 2⟩] "MA" (0, 0)).1 "MA2" (by decide),
   (locate_bus_unique_containment_and_fallback noContains cexDist cexLayer
      "MA" (0, 0)).2 1 "MA1" (by decide) (by decide) (by decide)⟩

/-- Witness for C2: a country code matching no row makes `locate_bus`
propagate the empty-sequence error. -/
theorem locate_bus_empty_selection_error_witness :
    locate_bus cexContains cexDist cexLayer "ZZ" (0, 0)
      = Except.error "min() arg is an empty sequence" :=
  locate_bus_empty_selection_error cexContains cexDist cexLayer "ZZ" (0, 0) (by decide)

/-- Prepend a character to the first chunk of a split result. -/
def consHead (c : Char) : List (List Char) → List (List Char)
  | [] => [[c]]
  | h :: t => (c :: h) :: t

/-- Python `s.split(", ")`: split on non-overlapping occurrences of the
two-character separator ", ", scanning left to right. -/
def splitCommaSpace : List Char → List (List Char)
  | [] => [[]]
  | [c] => [[c]]
  | c :: c2 :: rest2 =>
    if c = ',' ∧ c2 = ' ' then [] :: splitCommaSpace rest2
    else consHead c (splitCommaSpace (c2 :: rest2))

/-- The `remove_start_words` loop of `two_digits_2_name_country`: for each
word in order, when the current name starts with the word, the word's
first occurrence is removed (`full_name.replace(word, "", 1)`); under the
`startswith` guard the first occurrence is the leading prefix, so the
replacement drops the first `len(word)` characters and nothing else —
in particular no following space is consumed. -/
def removeStartWords (words : List (List Char)) (name : List Char) : List Char :=
  words.foldl (fun nm w => if w.isPrefixOf nm then nm.drop w.length else nm) name

/-- `two_digits_2_name_country` from scripts/_helpers.py.  `convertName`
models `coco.convert(·, to=name_string)` for the chosen `name_string`;
`convertShort` models the default `name_short` conversion used by the
unfolded recursive calls of the composite branch.  With `no_comma` the
name is split on ", ", the chunks are reversed and joined with a single
space; afterwards the `remove_start_words` loop runs (a no-op for an empty
word list, like the guarded loop of the source). -/
def two_digits_2_name_country (convertName convertShort : List Char → List Char)
    (two_code_country : List Char) (no_comma : Bool)
    (remove_start_words : List (List Char)) : List Char :=
  if two_code_country = "SN-GM".toList then
    convertShort "SN".toList ++ "-".toList ++ convertShort "GM".toList
  else
    let full_name := convertName two_code_country
    let full_name2 :=
      if no_comma then
        List.intercalate " ".toList (splitCommaSpace full_name).reverse
      else full_name
    removeStartWords remove_start_words full_name2

/-- The coco name table entry the C7 analysis uses: the documented conversion
CD -> "Congo, The Democratic Republic of". -/
def cvCD (c : List Char) : List Char :=
  if c = "CD".toList then "Congo, The Democratic Republic of".toList else c

/-- C7 failing input: per the source's own docstring, CD with `no_comma`
becomes "The Democratic Republic of Congo", and `remove_start_words=
["The"]` is then documented to yield "Democratic Republic of Congo"; the
code instead removes exactly the three characters "The" and returns
" Democratic Republic of Congo" with a leading space. -/
theorem two_digits_2_name_country_leading_space :
    two_digits_2_name_country cvCD cvCD "CD".toList true []
      = "The Democratic Republic of Congo".toList
    ∧ two_digits_2_name_country cvCD cvCD "CD".toList true ["The".toList]
      = " Democratic Republic of Congo".toList
    ∧ " Democratic Republic of Congo".toList ≠ "Democratic Republic of Congo".toList :=
  ⟨by decide, by decide, by decide⟩

/-- The NA token list of scripts/_helpers.py (NA and na excluded, as they
may be confused with the Namibia country code). -/
def NA_VALUES : List String :=
  ["NULL", "", "N/A", "NAN", "NaN", "nan", "Nan", "n/a", "null"]

/-- The keyword arguments of `read_csv_nafix` that the function inspects;
`none` models an absent key. -/
structure CsvKwargs where
  keep_default_na : Option Bool
  na_values : Option (List String)
deriving DecidableEq

/-- A pandas DataFrame, modelled as its column names and string records. -/
structure PyDataFrame where
  columns : List String
  records : List (List String)
deriving DecidableEq

/-- `pd.DataFrame()`: the empty frame. -/
def emptyDataFrame : PyDataFrame := ⟨[], []⟩

/-- The kwargs defaulting of `read_csv_nafix`: set `keep_default_na` to
False and `na_values` to `NA_VALUES` when absent. -/
def fillNaKwargs (kwargs : CsvKwargs) : CsvKwargs :=
  let k1 := if kwargs.keep_default_na = none then
    { kwargs with keep_default_na := some false } else kwargs
  if k1.na_values = none then { k1 with na_values := some NA_VALUES } else k1

/-- `read_csv_nafix` from scripts/_helpers.py.  `parse` models
`pd.read_csv`, the external parser, which raises on malformed content; the
file is modelled by its content, whose length is `os.stat(file).st_size`. -/
def read_csv_nafix (parse : CsvKwargs → String → Except String PyDataFrame)
    (kwargs : CsvKwargs) (file : String) : Except String PyDataFrame :=
  if file.length > 0 then parse (fillNaKwargs kwargs) file
  else Except.ok emptyDataFrame

/-- A geopandas GeoDataFrame, modelled as column names, CRS, string
records and per-column dtypes. -/
structure PyGeoDataFrame where
  columns : List String
  crs : String
  records : List (List String)
  dtypes : List (String × String)
deriving DecidableEq

/-- `read_geojson` from scripts/_helpers.py.  `parse` models
`gpd.read_file`; for a zero-byte file an empty GeoDataFrame with the
requested columns, CRS and (when given) dtypes is built. -/
def read_geojson (parse : String → Except String PyGeoDataFrame) (content : String)
    (cols : List String) (dtype : Option (List (String × String))) (crs : String) :
    Except String PyGeoDataFrame :=
  if content.length > 0 then parse content
  else
    Except.ok { columns := cols, crs := crs, records := [],
                dtypes := match dtype with | some d => d | none => [] }

/-- C8 (amended): zero-byte input files yield an empty typed container (an
empty DataFrame; an empty GeoDataFrame with the requested columns, CRS and
dtypes); any non-empty file is handed to the underlying parser and the
parser's outcome — including errors on malformed content — is returned
unchanged, i.e. parser exceptions propagate. -/
theorem readers_zero_byte_empty_nonempty_propagate
    (parseCsv : CsvKwargs → String → Except String PyDataFrame)
    (parseGeo : String → Except String PyGeoDataFrame)
    (kwargs : CsvKwargs) (cols : List String) (dtype : Option (List (String × String)))
    (crs : String) :
    read_csv_nafix parseCsv kwargs "" = Except.ok emptyDataFrame
    ∧ read_geojson parseGeo "" cols dtype crs
        = Except.ok { columns := cols, crs := crs, records := [],
                      dtypes := match dtype with | some d => d | none => [] }
    ∧ (∀ content : String, content.length > 0 →
        read_csv_nafix parseCsv kwargs content = parseCsv (fillNaKwargs kwargs) content
        ∧ read_geojson parseGeo content cols dtype crs = parseGeo content) := by
  refine ⟨rfl, rfl, ?_⟩
  intro content hlen
  constructor <;> simp [read_csv_nafix, read_geojson, hlen]

/-- A model of `pd.read_csv` raising a ParserError on malformed content. -/
def cexCsvParse (_ : CsvKwargs) (content : String) : Except String PyDataFrame :=
  if content = "\"unclosed" then Except.error "ParserError" else Except.ok ⟨["a"], [["1"]]⟩

/-- A model of `gpd.read_file` raising a DriverError on malformed content. -/
def cexGeoParse (content : String) : Except String PyGeoDataFrame :=
  if content = "not json" then Except.error "DriverError"
  else Except.ok ⟨[], "EPSG:4326", [], []⟩

/-- Counterexample to C8 as stated: a malformed (non-empty) CSV or GeoJSON
file does not degrade to an empty container — only the zero-byte check
guards the parser call, so the parser's error propagates. -/
theorem readers_malformed_counterexample :
    read_csv_nafix cexCsvParse ⟨none, none⟩ "\"unclosed" = Except.error "ParserError"
    ∧ read_csv_nafix cexCsvParse ⟨none, none⟩ "\"unclosed" ≠ Except.ok emptyDataFrame
    ∧ read_geojson cexGeoParse "not json" [] none "EPSG:4326"
        = Except.error "DriverError" :=
  ⟨rfl, fun h => by rw [show read_csv_nafix cexCsvParse ⟨none, none⟩ "\"unclosed"
      = Except.error "ParserError" from rfl] at h; exact Except.noConfusion h, rfl⟩

/-- Witness for the amended C8: non-empty content reaches the parser of
each reader unchanged. -/
theorem readers_zero_byte_empty_nonempty_propagate_witness :
    read_csv_nafix cexCsvParse ⟨none, none⟩ "a,b" = cexCsvParse (fillNaKwargs ⟨none, none⟩) "a,b"
    ∧ read_geojson cexGeoParse "x" [] none "EPSG:4326" = cexGeoParse "x" :=
  (readers_zero_byte_empty_nonempty_propagate cexCsvParse cexGeoParse ⟨none, none⟩ [] none
    "EPSG:4326").2.2 "a,b" (by decide)
    |>.imp id (fun _ => (readers_zero_byte_empty_nonempty_propagate cexCsvParse cexGeoParse
      ⟨none, none⟩ [] none "EPSG:4326").2.2 "x" (by decide) |>.2)
